import Mathlib

/-!
Shallow embedding of `src/Alpha & Beta/wootMath/vector.py` (class `Vector`).

The source is CPython 2.7 code: its `cross` method discriminates tuple-unpacking
failures by comparing the exception text against the CPython 2.7 messages
`need more than 1 value to unpack`, `need more than 2 values to unpack` and
`too many values to unpack`, so the embedding follows CPython 2.7 semantics.

Two layers are used:

* a real-number layer (`WootMath.Vector`, coordinates in `ℝ`): the arithmetic,
  magnitude, normalization, angle, predicate and projection operations, with
  Python exceptions modelled by `Except PyErr`.  `math.sqrt` and `math.acos`
  are idealized to `Real.sqrt` and `Real.arccos` (with the `acos` domain check
  kept explicit); `1./x` raises `ZeroDivisionError` exactly when `x = 0`, which
  the `normalized` branch reflects.

* a dynamically typed layer (`WootMath.PyVector`, coordinates are `PyVal`,
  i.e. Python ints or strings): the `cross` method.  This layer is needed
  because the 2-D promotion branch of `cross` appends the string `'0'` (not
  the number `0`) as third coordinate, so the subsequent arithmetic mixes
  ints and strings and its behaviour depends on Python's dynamic typing rules
  (`int * str` is sequence repetition, `str - str` is a `TypeError`).

Error kinds of the specification map to exception contents as the source
realizes them: `InvalidArgument` is a `ValueError`/`TypeError` from the
constructor, `ZeroVectorError` is `Exception('Cannot normalize the zero
vector')`, `NoUniqueParallelComponent` / `NoUniqueOrthogonalComponent` and
`UnsupportedDimension` are `Exception(...)` with the corresponding class
constant as message (the source discriminates error cases purely by message
text).
-/

namespace WootMath

/-- Python exception value: the constructor is the exception's type
(`ValueError`, `TypeError`, `ZeroDivisionError` or bare `Exception`), the
field its message (`str(e)`). -/
inductive PyErr where
  | valueError (msg : String)
  | typeError (msg : String)
  | zeroDivisionError (msg : String)
  | exception (msg : String)
deriving DecidableEq, Repr

/-- Message of an exception, i.e. Python's `str(e)`. -/
def PyErr.msg : PyErr → String
  | .valueError m => m
  | .typeError m => m
  | .zeroDivisionError m => m
  | .exception m => m

/-- Class constant `CANNOT_NORMALIZE_ZERO_VECTOR_MSG` of `Vector`. -/
def CANNOT_NORMALIZE_ZERO_VECTOR_MSG : String := "Cannot normalize the zero vector"

/-- Class constant `NO_UNIQUE_PARALLEL_COMPONENT_MSG` of `Vector`. -/
def NO_UNIQUE_PARALLEL_COMPONENT_MSG : String := "No unique parallel component"

/-- Class constant `NO_UNIQUE_ORTHOGONAL_COMPONENT_MSG` of `Vector`. -/
def NO_UNIQUE_ORTHOGONAL_COMPONENT_MSG : String := "No unique orthogonal component"

/-- Class constant `ONLY_DEFINED_IN_TWO_THREE_DIMS_MSG` of `Vector`. -/
def ONLY_DEFINED_IN_TWO_THREE_DIMS_MSG : String :=
  "Only two or three dimensional vectors can be processed"

/-- The `Vector` value: an ordered sequence of real coordinates
(field `coordinates`, stored by `__init__` as a tuple). -/
structure Vector where
  coordinates : List ℝ

/-- Attribute `dimension` set by `__init__`: `len(self.coordinates)`. -/
def Vector.dimension (v : Vector) : ℕ := v.coordinates.length

/-- A Python object passed to `Vector.__init__`: a sequence of numbers, a
plain int, or a bool.  Ints and bools are not iterable; a sequence is truthy
iff non-empty, an int iff non-zero, a bool iff `True`. -/
inductive PyObj where
  | seq (elems : List ℝ)
  | int (n : ℤ)
  | bool (b : Bool)

/-- Python truthiness of the constructor argument (`not coordinates` is the
negation of this). -/
def PyObj.truthy : PyObj → Bool
  | .seq elems => !elems.isEmpty
  | .int n => n != 0
  | .bool b => b

/-- Result of `tuple(coordinates)`: `some` elements for an iterable input,
`none` (modelling the `TypeError`) for a non-iterable one. -/
def PyObj.asIterable : PyObj → Option (List ℝ)
  | .seq elems => some elems
  | .int _ => none
  | .bool _ => none

/-- Model of `Vector.__init__`: first `if not coordinates: raise ValueError`
(re-raised as `ValueError('The coordinates must be nonempty')`), then
`tuple(coordinates)` whose `TypeError` is re-raised as
`TypeError('The coordinates must be iterable')`. -/
def Vector.init (coordinates : PyObj) : Except PyErr Vector :=
  if coordinates.truthy = false then
    .error (.valueError "The coordinates must be nonempty")
  else
    match coordinates.asIterable with
    | some elems => .ok ⟨elems⟩
    | none => .error (.typeError "The coordinates must be iterable")

/-- Model of `Vector.__add__`: pairs the coordinates with `zip` (which stops
at the shorter operand) and builds the result through the constructor. -/
def Vector.add (v w : Vector) : Except PyErr Vector :=
  Vector.init (.seq (List.zipWith (fun x y => x + y) v.coordinates w.coordinates))

/-- Model of `Vector.__sub__`: like `__add__` with element-wise difference. -/
def Vector.sub (v w : Vector) : Except PyErr Vector :=
  Vector.init (.seq (List.zipWith (fun x y => x - y) v.coordinates w.coordinates))

/-- Model of `Vector.__mul__` (scaling by a scalar `times`). -/
def Vector.mul (v : Vector) (times : ℝ) : Except PyErr Vector :=
  Vector.init (.seq (v.coordinates.map (fun coordinate => coordinate * times)))

/-- Model of `Vector.magnitude`: `sqrt(sum(coordinate**2 for ...))`. -/
noncomputable def Vector.magnitude (v : Vector) : ℝ :=
  Real.sqrt ((v.coordinates.map (fun coordinate => coordinate ^ 2)).sum)

/-- Model of `Vector.normalized`: `self * (1. / magnitude)`, where the
`ZeroDivisionError` of `1. / 0.0` is caught and re-raised as
`Exception('Cannot normalize the zero vector')`.  Float division raises
exactly when the divisor is zero. -/
noncomputable def Vector.normalized (v : Vector) : Except PyErr Vector :=
  if v.magnitude = 0 then
    .error (.exception CANNOT_NORMALIZE_ZERO_VECTOR_MSG)
  else
    v.mul (1 / v.magnitude)

/-- Model of `Vector.dot`: `sum(x * y for zip(...))`, again truncating at the
shorter operand. -/
def Vector.dot (v w : Vector) : ℝ :=
  (List.zipWith (fun x y => x * y) v.coordinates w.coordinates).sum

/-- Model of `math.acos`: raises `ValueError('math domain error')` outside
`[-1, 1]`, otherwise returns the arccosine. -/
noncomputable def acos (x : ℝ) : Except PyErr ℝ :=
  if x < -1 ∨ 1 < x then .error (.valueError "math domain error")
  else .ok (Real.arccos x)

/-- The recurring `try/except` pattern of the source: run the body; on an
exception whose text equals `src`, re-raise `Exception(dst)`; propagate any
other exception unchanged. -/
def relabelError {α : Type} (src dst : String) (r : Except PyErr α) : Except PyErr α :=
  match r with
  | .ok a => .ok a
  | .error e => if e.msg = src then .error (.exception dst) else .error e

/-- Model of `Vector.angle_with`: normalizes both operands, applies `acos` to
the dot product of the unit vectors (no clamping), optionally converts to
degrees; any exception whose text is the zero-vector normalization message is
re-raised as `Exception('Cannot compute an angle with the zero vector')`,
everything else propagates unchanged. -/
noncomputable def Vector.angle_with (v w : Vector) (in_degrees : Bool) : Except PyErr ℝ :=
  relabelError CANNOT_NORMALIZE_ZERO_VECTOR_MSG "Cannot compute an angle with the zero vector"
    (do
      let unit1 ← v.normalized
      let unit2 ← w.normalized
      let angle_in_radians ← acos (unit1.dot unit2)
      if in_degrees then
        pure (angle_in_radians * (180 / Real.pi))
      else
        pure angle_in_radians)

/-- Model of `Vector.is_zero`: `magnitude < tolerance` (default tolerance in
the source is `1e-10`; callers pass it explicitly here). -/
noncomputable def Vector.is_zero (v : Vector) (tolerance : ℝ) : Bool :=
  decide (v.magnitude < tolerance)

/-- Model of `Vector.is_orthogonal_to`: `abs(dot) < tolerance`. -/
noncomputable def Vector.is_orthogonal_to (v w : Vector) (tolerance : ℝ) : Bool :=
  decide (|v.dot w| < tolerance)

/-- Model of `Vector.is_parallel_to`: the Python expression
`self.is_zero() or v.is_zero() or self.angle_with(v) == 0 or
self.angle_with(v) == pi` with left-to-right short-circuit evaluation;
an exception raised by `angle_with` propagates. -/
noncomputable def Vector.is_parallel_to (v w : Vector) : Except PyErr Bool :=
  if v.is_zero (1e-10) then .ok true
  else if w.is_zero (1e-10) then .ok true
  else
    match v.angle_with w false with
    | .error e => .error e
    | .ok a1 =>
      if a1 = 0 then .ok true
      else
        match v.angle_with w false with
        | .error e => .error e
        | .ok a2 => if a2 = Real.pi then .ok true else .ok false

/-- Model of `Vector.component_parallel_to`: `u = basis.normalized();
return u * self.dot(u)`; an exception whose text is the zero-vector
normalization message is re-raised as
`Exception('No unique parallel component')`. -/
noncomputable def Vector.component_parallel_to (v basis : Vector) : Except PyErr Vector :=
  relabelError CANNOT_NORMALIZE_ZERO_VECTOR_MSG NO_UNIQUE_PARALLEL_COMPONENT_MSG
    (do
      let u ← basis.normalized
      let weight := v.dot u
      u.mul weight)

/-- Model of `Vector.component_orthogonal_to`: `self - component_parallel_to
(basis)`; an exception whose text is the no-unique-parallel-component message
is re-raised as `Exception('No unique orthogonal component')`. -/
noncomputable def Vector.component_orthogonal_to (v basis : Vector) : Except PyErr Vector :=
  relabelError NO_UNIQUE_PARALLEL_COMPONENT_MSG NO_UNIQUE_ORTHOGONAL_COMPONENT_MSG
    (do
      let projection ← v.component_parallel_to basis
      v.sub projection)

/-- A Python value held in a vector reaching `cross`: an int or a string
(the 2-D promotion branch appends the string `'0'`). -/
inductive PyVal where
  | int (n : ℤ)
  | str (s : String)
deriving DecidableEq, Repr

/-- Python type name of a value, as it appears in `TypeError` messages. -/
def PyVal.typeName : PyVal → String
  | .int _ => "int"
  | .str _ => "str"

/-- Python sequence repetition `n * s` for an int `n` and string `s`
(non-positive `n` yields the empty string). -/
def pyRepeat (n : ℤ) (s : String) : String :=
  String.join (List.replicate n.toNat s)

/-- Python 2 multiplication restricted to ints and strings: `int * int` is
integer multiplication, `int * str` and `str * int` are sequence repetition,
`str * str` is a `TypeError`. -/
def pyMul : PyVal → PyVal → Except PyErr PyVal
  | .int a, .int b => .ok (.int (a * b))
  | .int a, .str s => .ok (.str (pyRepeat a s))
  | .str s, .int a => .ok (.str (pyRepeat a s))
  | .str _, .str _ =>
    .error (.typeError "can\x27t multiply sequence by non-int of type \x27str\x27")

/-- Python 2 subtraction restricted to ints and strings: defined only on two
ints, `TypeError` otherwise. -/
def pySub : PyVal → PyVal → Except PyErr PyVal
  | .int a, .int b => .ok (.int (a - b))
  | a, b =>
    .error (.typeError ("unsupported operand type(s) for -: \x27" ++ a.typeName
      ++ "\x27 and \x27" ++ b.typeName ++ "\x27"))

/-- Python 2 unary minus restricted to ints and strings. -/
def pyNeg : PyVal → Except PyErr PyVal
  | .int a => .ok (.int (-a))
  | .str _ => .error (.typeError "bad operand type for unary -: \x27str\x27")

/-- A vector whose coordinates are dynamically typed Python values; this is
the representation on which `cross` operates. -/
structure PyVector where
  coordinates : List PyVal
deriving DecidableEq, Repr

/-- Attribute `dimension` of a dynamically typed vector. -/
def PyVector.dimension (v : PyVector) : ℕ := v.coordinates.length

/-- Model of `Vector.__init__` applied to a list of Python values (a list is
iterable and truthy iff non-empty). -/
def PyVector.init (coordinates : List PyVal) : Except PyErr PyVector :=
  if coordinates.isEmpty then
    .error (.valueError "The coordinates must be nonempty")
  else
    .ok ⟨coordinates⟩

/-- CPython 2.7 unpacking of a sequence into the three names
`x, y, z = coordinates`: succeeds exactly on length three, otherwise raises
`ValueError` with the CPython 2.7 message for the actual length. -/
def unpack3 (l : List PyVal) : Except PyErr (PyVal × PyVal × PyVal) :=
  match l with
  | [] => .error (.valueError "need more than 0 values to unpack")
  | [_] => .error (.valueError "need more than 1 value to unpack")
  | [_, _] => .error (.valueError "need more than 2 values to unpack")
  | [a, b, c] => .ok (a, b, c)
  | _ :: _ :: _ :: _ :: _ => .error (.valueError "too many values to unpack")

/-- Model of `Vector.cross` with explicit recursion fuel (CPython's default
recursion limit is 1000; exhausting it is a `RuntimeError`).  The body unpacks
both coordinate tuples, evaluates the three determinant entries left to right
with dynamically typed arithmetic, and builds the result via the constructor.
Only a `ValueError` is caught: the need-more-than-2 message triggers the 2-D
promotion, which appends the STRING `'0'` (exactly as the source does) to both
operands and recurses; the too-many / need-more-than-1 messages raise
`Exception(ONLY_DEFINED_IN_TWO_THREE_DIMS_MSG)`; any other error
propagates. -/
def crossFuel : ℕ → PyVector → PyVector → Except PyErr PyVector
  | 0, _, _ => .error (.exception "maximum recursion depth exceeded")
  | n + 1, v, w =>
    match (do
      let (x1, y1, z1) ← unpack3 v.coordinates
      let (x2, y2, z2) ← unpack3 w.coordinates
      let c1l ← pyMul y1 z2
      let c1r ← pyMul y2 z1
      let c1 ← pySub c1l c1r
      let c2l ← pyMul x1 z2
      let c2r ← pyMul x2 z1
      let c2inner ← pySub c2l c2r
      let c2 ← pyNeg c2inner
      let c3l ← pyMul x1 y2
      let c3r ← pyMul x2 y1
      let c3 ← pySub c3l c3r
      PyVector.init [c1, c2, c3] : Except PyErr PyVector) with
    | .ok r => .ok r
    | .error e =>
      match e with
      | .valueError msg =>
        if msg = "need more than 2 values to unpack" then
          crossFuel n ⟨v.coordinates ++ [.str "0"]⟩ ⟨w.coordinates ++ [.str "0"]⟩
        else if msg = "too many values to unpack" ∨ msg = "need more than 1 value to unpack" then
          .error (.exception ONLY_DEFINED_IN_TWO_THREE_DIMS_MSG)
        else
          .error e
      | _ => .error e

/-- Model of `Vector.cross`, run with CPython's default recursion limit. -/
def PyVector.cross (v w : PyVector) : Except PyErr PyVector :=
  crossFuel 1000 v w

end WootMath

namespace WootMath

/-- C1: the claim says `cross((1,0),(0,1))` returns `(0,0,1)` after embedding
both operands into three dimensions with a zero third coordinate.  The code
instead appends the STRING `'0'`, so the recursive call multiplies the int
coordinates by a string (sequence repetition) and then subtracts two strings,
which raises `TypeError` — the call never returns a vector.  This theorem
evaluates the code at the failing input. -/
theorem C1_cross_2d_promotion_raises_TypeError :
    PyVector.cross ⟨[.int 1, .int 0]⟩ ⟨[.int 0, .int 1]⟩ =
      .error (.typeError "unsupported operand type(s) for -: \x27str\x27 and \x27str\x27") := by
  rfl

/-- C7 counterexample: the claim states the `UnsupportedDimension` failure
carries the message `only two or three dimensional vectors can be processed`,
but at the 4-D input the code raises the class constant, which is capitalized
`Only two or three dimensional vectors can be processed` — a different
string. -/
theorem C7_counterexample_message_capitalization :
    PyVector.cross ⟨[.int 1, .int 2, .int 3, .int 4]⟩ ⟨[.int 1, .int 2, .int 3]⟩ =
      .error (.exception "Only two or three dimensional vectors can be processed") ∧
    "Only two or three dimensional vectors can be processed" ≠
      "only two or three dimensional vectors can be processed" := by
  exact ⟨rfl, by decide⟩

/-- C7 (amended): for every pair of vectors (dimensions at least 1, as the
constructor guarantees) where either operand's dimension is not 2 or 3,
`cross` fails with the `UnsupportedDimension` exception carrying the message
`Only two or three dimensional vectors can be processed`. -/
theorem C7_cross_unsupported_dimension (a b : PyVector)
    (ha : 1 ≤ a.dimension) (hb : 1 ≤ b.dimension)
    (hbad : (a.dimension ≠ 2 ∧ a.dimension ≠ 3) ∨ (b.dimension ≠ 2 ∧ b.dimension ≠ 3)) :
    a.cross b = .error (.exception ONLY_DEFINED_IN_TWO_THREE_DIMS_MSG) := by
  obtain ⟨la⟩ := a
  obtain ⟨lb⟩ := b
  simp only [PyVector.dimension] at ha hb hbad
  rcases la with _ | ⟨x, _ | ⟨y, _ | ⟨z, _ | ⟨u, resta⟩⟩⟩⟩
  · simp at ha
  · rfl
  · have hbbad : lb.length ≠ 2 ∧ lb.length ≠ 3 := by
      rcases hbad with h | h
      · simp at h
      · exact h
    rcases lb with _ | ⟨p, _ | ⟨q, _ | ⟨r, _ | ⟨s, restb⟩⟩⟩⟩
    · simp at hb
    · rfl
    · simp at hbbad
    · simp at hbbad
    · rfl
  · have hbbad : lb.length ≠ 2 ∧ lb.length ≠ 3 := by
      rcases hbad with h | h
      · simp at h
      · exact h
    rcases lb with _ | ⟨p, _ | ⟨q, _ | ⟨r, _ | ⟨s, restb⟩⟩⟩⟩
    · simp at hb
    · rfl
    · simp at hbbad
    · simp at hbbad
    · rfl
  · rfl

/-- C7 witness: the amended theorem applied at a concrete 1-D / 3-D pair. -/
theorem C7_cross_unsupported_dimension_witness :
    1 ≤ PyVector.dimension ⟨[.int 7]⟩ ∧
    1 ≤ PyVector.dimension ⟨[.int 1, .int 2, .int 3]⟩ ∧
    PyVector.cross ⟨[.int 7]⟩ ⟨[.int 1, .int 2, .int 3]⟩ =
      .error (.exception ONLY_DEFINED_IN_TWO_THREE_DIMS_MSG) := by
  refine ⟨by decide, by decide, ?_⟩
  exact C7_cross_unsupported_dimension ⟨[.int 7]⟩ ⟨[.int 1, .int 2, .int 3]⟩
    (by decide) (by decide) (Or.inl (by decide))

/-- C9: constructing a `Vector` from a non-empty sequence of numbers succeeds
with `dimension` equal to the sequence's length and `coordinates` equal to its
elements in order; constructing from the empty sequence fails with the
`InvalidArgument` error (`ValueError('The coordinates must be nonempty')`). -/
theorem C9_constructor :
    (∀ c : List ℝ, c ≠ [] →
      ∃ v : Vector, Vector.init (.seq c) = .ok v ∧
        v.dimension = c.length ∧ v.coordinates = c) ∧
    Vector.init (.seq []) = .error (.valueError "The coordinates must be nonempty") := by
  refine ⟨fun c hc => ?_, rfl⟩
  match c with
  | [] => exact absurd rfl hc
  | x :: rest => exact ⟨⟨x :: rest⟩, rfl, rfl, rfl⟩

/-- C9 witness: the constructor applied to the concrete sequence `[1, 2, 3]`. -/
theorem C9_constructor_witness :
    ([1, 2, 3] : List ℝ) ≠ [] ∧
    ∃ v : Vector, Vector.init (.seq [1, 2, 3]) = .ok v ∧
      v.dimension = 3 ∧ v.coordinates = [1, 2, 3] := by
  refine ⟨by simp, ?_⟩
  exact C9_constructor.1 [1, 2, 3] (by simp)

/-- C10: the constructor tests truthiness before iterability, so every falsy
input — including the non-iterable `0` and `False` — fails with the
`nonempty` `InvalidArgument` error, while the `iterable` error is reserved
for truthy non-iterable input. -/
theorem C10_falsy_checked_before_iterable :
    (∀ o : PyObj, o.truthy = false →
      Vector.init o = .error (.valueError "The coordinates must be nonempty")) ∧
    (∀ o : PyObj, o.truthy = true → o.asIterable = none →
      Vector.init o = .error (.typeError "The coordinates must be iterable")) ∧
    PyObj.truthy (.int 0) = false ∧
    PyObj.truthy (.bool false) = false ∧
    PyObj.asIterable (.int 0) = none ∧
    PyObj.asIterable (.bool false) = none := by
  refine ⟨fun o h => ?_, fun o h1 h2 => ?_, rfl, rfl, rfl, rfl⟩
  · simp [Vector.init, h]
  · simp [Vector.init, h1, h2]

/-- C10 witness: the theorem applied to the falsy non-iterable input `0`. -/
theorem C10_falsy_checked_before_iterable_witness :
    PyObj.truthy (.int 0) = false ∧
    Vector.init (.int 0) = .error (.valueError "The coordinates must be nonempty") :=
  ⟨rfl, C10_falsy_checked_before_iterable.1 (.int 0) rfl⟩

end WootMath

namespace WootMath

/-- Constructing from a non-empty list of numbers succeeds and stores exactly
those coordinates. -/
theorem Vector.init_seq_ok (l : List ℝ) (h : l ≠ []) :
    Vector.init (.seq l) = .ok ⟨l⟩ := by
  match l with
  | [] => exact absurd rfl h
  | x :: rest => rfl

/-- A sum of squared coordinates is non-negative. -/
theorem sum_sq_nonneg (l : List ℝ) : 0 ≤ (l.map (fun c => c ^ 2)).sum := by
  apply List.sum_nonneg
  intro x hx
  simp only [List.mem_map] at hx
  obtain ⟨a, _, rfl⟩ := hx
  positivity

/-- The magnitude vanishes exactly when the sum of squared coordinates does. -/
theorem Vector.magnitude_eq_zero (v : Vector) :
    v.magnitude = 0 ↔ (v.coordinates.map (fun c => c ^ 2)).sum = 0 :=
  Real.sqrt_eq_zero (sum_sq_nonneg v.coordinates)

/-- A vector of non-zero magnitude has a non-empty coordinate list. -/
theorem Vector.coordinates_ne_nil (v : Vector) (h : v.magnitude ≠ 0) :
    v.coordinates ≠ [] := by
  intro hnil
  apply h
  rw [Vector.magnitude, hnil]
  simp

/-- Normalization of a zero-magnitude vector yields the zero-vector error. -/
theorem Vector.normalized_eq_error (v : Vector) (h : v.magnitude = 0) :
    v.normalized = .error (.exception CANNOT_NORMALIZE_ZERO_VECTOR_MSG) := by
  rw [Vector.normalized, if_pos h]

/-- Normalization of a vector of non-zero magnitude scales each coordinate
by the reciprocal magnitude. -/
theorem Vector.normalized_eq_ok (v : Vector) (h : v.magnitude ≠ 0) :
    v.normalized = .ok ⟨v.coordinates.map (fun c => c * (1 / v.magnitude))⟩ := by
  have hne : v.coordinates.map (fun c => c * (1 / v.magnitude)) ≠ [] := by
    intro hmap
    exact Vector.coordinates_ne_nil v h (List.map_eq_nil_iff.mp hmap)
  rw [Vector.normalized, if_neg h, Vector.mul, Vector.init_seq_ok _ hne]

/-- Entry `i` of a `zipWith` is the function applied to the entries `i`. -/
theorem zipWith_getD (f : ℝ → ℝ → ℝ) (xs ys : List ℝ) (i : ℕ)
    (h : i < min xs.length ys.length) :
    (List.zipWith f xs ys).getD i 0 = f (xs.getD i 0) (ys.getD i 0) := by
  induction xs generalizing ys i with
  | nil => simp at h
  | cons x xs ih =>
    cases ys with
    | nil => simp at h
    | cons y ys =>
      cases i with
      | zero => simp
      | succ j =>
        rw [List.length_cons, List.length_cons, Nat.succ_min_succ] at h
        simp only [List.zipWith_cons_cons, List.getD_cons_succ]
        exact ih ys j (Nat.lt_of_succ_lt_succ h)

/-- The sum of a `zipWith` over two lists equals the sum of the paired images
over the indices of the shorter list. -/
theorem zipWith_sum_getD (f : ℝ → ℝ → ℝ) (xs ys : List ℝ) :
    (List.zipWith f xs ys).sum =
      ∑ i ∈ Finset.range (min xs.length ys.length), f (xs.getD i 0) (ys.getD i 0) := by
  induction xs generalizing ys with
  | nil => simp
  | cons x xs ih =>
    cases ys with
    | nil => simp
    | cons y ys =>
      rw [List.zipWith_cons_cons, List.sum_cons, ih ys, List.length_cons, List.length_cons,
        Nat.succ_min_succ, Finset.sum_range_succ']
      simp only [List.getD_cons_succ, List.getD_cons_zero]
      rw [add_comm]

/-- C2: on operands of different dimensions, `add` and `sub` silently return
a vector of the shorter dimension built element-wise over the common prefix,
and `dot` sums products over the common prefix only; none of the three raises
an error. -/
theorem C2_mismatched_dimensions_truncate (a b : Vector)
    (ha : a.coordinates ≠ []) (hb : b.coordinates ≠ [])
    (_hne : a.dimension ≠ b.dimension) :
    (∃ c, a.add b = .ok c ∧ c.dimension = min a.dimension b.dimension ∧
      ∀ i, i < min a.dimension b.dimension →
        c.coordinates.getD i 0 = a.coordinates.getD i 0 + b.coordinates.getD i 0) ∧
    (∃ c, a.sub b = .ok c ∧ c.dimension = min a.dimension b.dimension ∧
      ∀ i, i < min a.dimension b.dimension →
        c.coordinates.getD i 0 = a.coordinates.getD i 0 - b.coordinates.getD i 0) ∧
    a.dot b = ∑ i ∈ Finset.range (min a.dimension b.dimension),
      a.coordinates.getD i 0 * b.coordinates.getD i 0 := by
  have hla : 0 < a.coordinates.length := List.length_pos.mpr ha
  have hlb : 0 < b.coordinates.length := List.length_pos.mpr hb
  have hzadd : List.zipWith (fun x y => x + y) a.coordinates b.coordinates ≠ [] := by
    intro hnil
    have hlen := congrArg List.length hnil
    rw [List.length_zipWith] at hlen
    simp only [List.length_nil] at hlen
    omega
  have hzsub : List.zipWith (fun x y => x - y) a.coordinates b.coordinates ≠ [] := by
    intro hnil
    have hlen := congrArg List.length hnil
    rw [List.length_zipWith] at hlen
    simp only [List.length_nil] at hlen
    omega
  refine ⟨⟨⟨List.zipWith (fun x y => x + y) a.coordinates b.coordinates⟩, ?_, ?_, ?_⟩,
    ⟨⟨List.zipWith (fun x y => x - y) a.coordinates b.coordinates⟩, ?_, ?_, ?_⟩, ?_⟩
  · rw [Vector.add, Vector.init_seq_ok _ hzadd]
  · exact List.length_zipWith _ _ _
  · exact fun i hi => zipWith_getD _ _ _ i hi
  · rw [Vector.sub, Vector.init_seq_ok _ hzsub]
  · exact List.length_zipWith _ _ _
  · exact fun i hi => zipWith_getD _ _ _ i hi
  · exact zipWith_sum_getD _ _ _

/-- C2 witness: the theorem applied to the concrete mismatched pair
`(1, 2)` and `(10, 20, 30)`. -/
theorem C2_mismatched_dimensions_truncate_witness :
    (Vector.mk [1, 2]).coordinates ≠ [] ∧
    (Vector.mk [10, 20, 30]).coordinates ≠ [] ∧
    Vector.dimension ⟨[1, 2]⟩ ≠ Vector.dimension ⟨[10, 20, 30]⟩ ∧
    ((∃ c, Vector.add ⟨[1, 2]⟩ ⟨[10, 20, 30]⟩ = .ok c ∧
      c.dimension = min (Vector.dimension ⟨[1, 2]⟩) (Vector.dimension ⟨[10, 20, 30]⟩) ∧
      ∀ i, i < min (Vector.dimension ⟨[1, 2]⟩) (Vector.dimension ⟨[10, 20, 30]⟩) →
        c.coordinates.getD i 0 =
          (Vector.mk [1, 2]).coordinates.getD i 0 +
          (Vector.mk [10, 20, 30]).coordinates.getD i 0) ∧
    (∃ c, Vector.sub ⟨[1, 2]⟩ ⟨[10, 20, 30]⟩ = .ok c ∧
      c.dimension = min (Vector.dimension ⟨[1, 2]⟩) (Vector.dimension ⟨[10, 20, 30]⟩) ∧
      ∀ i, i < min (Vector.dimension ⟨[1, 2]⟩) (Vector.dimension ⟨[10, 20, 30]⟩) →
        c.coordinates.getD i 0 =
          (Vector.mk [1, 2]).coordinates.getD i 0 -
          (Vector.mk [10, 20, 30]).coordinates.getD i 0) ∧
    Vector.dot ⟨[1, 2]⟩ ⟨[10, 20, 30]⟩ =
      ∑ i ∈ Finset.range (min (Vector.dimension ⟨[1, 2]⟩) (Vector.dimension ⟨[10, 20, 30]⟩)),
        (Vector.mk [1, 2]).coordinates.getD i 0 *
        (Vector.mk [10, 20, 30]).coordinates.getD i 0) := by
  refine ⟨by simp, by simp, by decide, ?_⟩
  exact C2_mismatched_dimensions_truncate ⟨[1, 2]⟩ ⟨[10, 20, 30]⟩ (by simp) (by simp) (by decide)

end WootMath

namespace WootMath

/-- Square roots of recognized perfect squares. -/
theorem sqrt_eq_of_sq (a b : ℝ) (hb : 0 ≤ b) (h : b ^ 2 = a) : Real.sqrt a = b := by
  rw [← h, Real.sqrt_sq hb]

/-- C4: `normalized` fails with the `ZeroVectorError` message exactly when the
magnitude is zero (exact zero, not tolerance-based), and otherwise scales the
vector by the reciprocal of its magnitude. -/
theorem C4_normalized_zero_iff (v : Vector) :
    (v.normalized = .error (.exception "Cannot normalize the zero vector") ↔
      v.magnitude = 0) ∧
    (v.magnitude ≠ 0 →
      v.normalized = .ok ⟨v.coordinates.map (fun c => c * (1 / v.magnitude))⟩) := by
  refine ⟨⟨fun h => ?_, fun h => Vector.normalized_eq_error v h⟩, Vector.normalized_eq_ok v⟩
  by_contra hne
  rw [Vector.normalized_eq_ok v hne] at h
  exact Except.noConfusion h

/-- C4 witness: the theorem applied to the vector `(3, 4)` of magnitude 5. -/
theorem C4_normalized_zero_iff_witness :
    Vector.magnitude ⟨[3, 4]⟩ ≠ 0 ∧
    Vector.normalized ⟨[3, 4]⟩ = .ok ⟨[3 * (1 / 5), 4 * (1 / 5)]⟩ := by
  have h5 : Vector.magnitude ⟨[3, 4]⟩ = 5 := by
    rw [Vector.magnitude]
    refine sqrt_eq_of_sq _ 5 (by norm_num) ?_
    norm_num
  have hne : Vector.magnitude ⟨[3, 4]⟩ ≠ 0 := by rw [h5]; norm_num
  refine ⟨hne, ?_⟩
  have h := (C4_normalized_zero_iff ⟨[3, 4]⟩).2 hne
  rw [h5] at h
  simpa using h

/-- C5: with a zero basis, the parallel component fails with the
`NoUniqueParallelComponent` message and the orthogonal component with the
`NoUniqueOrthogonalComponent` message; the inner zero-vector normalization
error never surfaces verbatim. -/
theorem C5_zero_basis_relabels (v basis : Vector) (h : basis.magnitude = 0) :
    v.component_parallel_to basis = .error (.exception NO_UNIQUE_PARALLEL_COMPONENT_MSG) ∧
    v.component_orthogonal_to basis = .error (.exception NO_UNIQUE_ORTHOGONAL_COMPONENT_MSG) ∧
    v.component_parallel_to basis ≠ .error (.exception CANNOT_NORMALIZE_ZERO_VECTOR_MSG) ∧
    v.component_orthogonal_to basis ≠ .error (.exception CANNOT_NORMALIZE_ZERO_VECTOR_MSG) := by
  have hpar : v.component_parallel_to basis =
      .error (.exception NO_UNIQUE_PARALLEL_COMPONENT_MSG) := by
    rw [Vector.component_parallel_to, Vector.normalized_eq_error basis h]
    rfl
  have hort : v.component_orthogonal_to basis =
      .error (.exception NO_UNIQUE_ORTHOGONAL_COMPONENT_MSG) := by
    rw [Vector.component_orthogonal_to, hpar]
    rfl
  refine ⟨hpar, hort, ?_, ?_⟩
  · rw [hpar]
    intro hcon
    simp [NO_UNIQUE_PARALLEL_COMPONENT_MSG, CANNOT_NORMALIZE_ZERO_VECTOR_MSG] at hcon
  · rw [hort]
    intro hcon
    simp [NO_UNIQUE_ORTHOGONAL_COMPONENT_MSG, CANNOT_NORMALIZE_ZERO_VECTOR_MSG] at hcon

/-- C5 witness: the theorem applied at `v = (1)`, zero basis `(0)`. -/
theorem C5_zero_basis_relabels_witness :
    Vector.magnitude ⟨[0]⟩ = 0 ∧
    Vector.component_parallel_to ⟨[1]⟩ ⟨[0]⟩ =
      .error (.exception NO_UNIQUE_PARALLEL_COMPONENT_MSG) ∧
    Vector.component_orthogonal_to ⟨[1]⟩ ⟨[0]⟩ =
      .error (.exception NO_UNIQUE_ORTHOGONAL_COMPONENT_MSG) := by
  have h0 : Vector.magnitude ⟨[0]⟩ = 0 := by
    rw [Vector.magnitude]
    refine sqrt_eq_of_sq _ 0 (by norm_num) ?_
    norm_num
  have h := C5_zero_basis_relabels ⟨[1]⟩ ⟨[0]⟩ h0
  exact ⟨h0, h.1, h.2.1⟩

/-- Adding a projection back to the residual `v - p` element-wise restores
`v` when the lists have equal length. -/
theorem zipWith_add_sub (ps vs : List ℝ) (h : ps.length = vs.length) :
    List.zipWith (fun x y => x + y) ps (List.zipWith (fun x y => x - y) vs ps) = vs := by
  induction ps generalizing vs with
  | nil =>
    cases vs with
    | nil => rfl
    | cons y ys => simp at h
  | cons x xs ih =>
    cases vs with
    | nil => simp at h
    | cons y ys =>
      simp only [List.zipWith_cons_cons, List.cons.injEq]
      refine ⟨by ring, ih ys ?_⟩
      simpa using h

end WootMath

namespace WootMath

/-- Binding a successful `Except` computation just applies the continuation. -/
theorem except_bind_ok {α β : Type} (a : α) (f : α → Except PyErr β) :
    (Except.ok a : Except PyErr α) >>= f = f a := rfl

/-- Relabelling leaves a successful result unchanged. -/
theorem relabelError_ok {α : Type} (src dst : String) (a : α) :
    relabelError src dst (.ok a) = .ok a := rfl

/-- The parallel component for a non-zero basis: the unit basis scaled by the
weight `v ⬝ u`. -/
theorem Vector.component_parallel_eq_ok (v basis : Vector) (hb : basis.magnitude ≠ 0) :
    v.component_parallel_to basis =
      .ok ⟨(basis.coordinates.map (fun c => c * (1 / basis.magnitude))).map
        (fun c => c * (v.dot ⟨basis.coordinates.map (fun c => c * (1 / basis.magnitude))⟩))⟩ := by
  have hu : basis.coordinates.map (fun c => c * (1 / basis.magnitude)) ≠ [] := by
    intro hmap
    exact Vector.coordinates_ne_nil basis hb (List.map_eq_nil_iff.mp hmap)
  have hp : (basis.coordinates.map (fun c => c * (1 / basis.magnitude))).map
      (fun c => c * (v.dot ⟨basis.coordinates.map (fun c => c * (1 / basis.magnitude))⟩)) ≠ [] := by
    intro hmap
    exact hu (List.map_eq_nil_iff.mp hmap)
  have hbody : (do
      let u ← basis.normalized
      let weight := v.dot u
      u.mul weight : Except PyErr Vector) =
      .ok ⟨(basis.coordinates.map (fun c => c * (1 / basis.magnitude))).map
        (fun c => c * (v.dot ⟨basis.coordinates.map (fun c => c * (1 / basis.magnitude))⟩))⟩ := by
    rw [Vector.normalized_eq_ok basis hb, except_bind_ok]
    rw [Vector.mul]
    exact Vector.init_seq_ok _ hp
  rw [Vector.component_parallel_to, hbody, relabelError_ok]

/-- C6: for a non-zero basis of the same dimension as `v`, both components
succeed and their sum reconstructs `v` exactly. -/
theorem C6_decomposition (v basis : Vector) (hb : basis.magnitude ≠ 0)
    (hdim : v.dimension = basis.dimension) :
    ∃ p o : Vector, v.component_parallel_to basis = .ok p ∧
      v.component_orthogonal_to basis = .ok o ∧ p.add o = .ok v := by
  have hvlen : v.coordinates.length = basis.coordinates.length := hdim
  have hbne : basis.coordinates ≠ [] := Vector.coordinates_ne_nil basis hb
  have hb0 : 0 < basis.coordinates.length := List.length_pos.mpr hbne
  have hv0 : 0 < v.coordinates.length := by omega
  have hvne : v.coordinates ≠ [] := by
    intro hnil
    rw [hnil] at hv0
    simp at hv0
  set p : Vector := ⟨(basis.coordinates.map (fun c => c * (1 / basis.magnitude))).map
    (fun c => c * (v.dot ⟨basis.coordinates.map (fun c => c * (1 / basis.magnitude))⟩))⟩ with hpdef
  have hplen : p.coordinates.length = v.coordinates.length := by
    rw [hpdef]
    simp [hvlen]
  have hpar : v.component_parallel_to basis = .ok p :=
    Vector.component_parallel_eq_ok v basis hb
  have hzne : List.zipWith (fun x y => x - y) v.coordinates p.coordinates ≠ [] := by
    intro hnil
    have hlen := congrArg List.length hnil
    rw [List.length_zipWith, hplen, min_self] at hlen
    simp only [List.length_nil] at hlen
    omega
  set o : Vector := ⟨List.zipWith (fun x y => x - y) v.coordinates p.coordinates⟩ with hodef
  have hort : v.component_orthogonal_to basis = .ok o := by
    have hbody : (do
        let projection ← v.component_parallel_to basis
        v.sub projection : Except PyErr Vector) = .ok o := by
      rw [hpar, except_bind_ok]
      rw [Vector.sub]
      exact Vector.init_seq_ok _ hzne
    rw [Vector.component_orthogonal_to, hbody, relabelError_ok]
  refine ⟨p, o, hpar, hort, ?_⟩
  rw [Vector.add, hodef]
  have hrestore : List.zipWith (fun x y => x + y) p.coordinates
      (List.zipWith (fun x y => x - y) v.coordinates p.coordinates) = v.coordinates :=
    zipWith_add_sub p.coordinates v.coordinates hplen
  rw [hrestore, Vector.init_seq_ok _ hvne]

/-- C6 witness: the theorem applied at `v = (1, 2)`, basis `(1, 0)`. -/
theorem C6_decomposition_witness :
    Vector.magnitude ⟨[1, 0]⟩ ≠ 0 ∧
    Vector.dimension ⟨[1, 2]⟩ = Vector.dimension ⟨[1, 0]⟩ ∧
    ∃ p o : Vector, Vector.component_parallel_to ⟨[1, 2]⟩ ⟨[1, 0]⟩ = .ok p ∧
      Vector.component_orthogonal_to ⟨[1, 2]⟩ ⟨[1, 0]⟩ = .ok o ∧
      p.add o = .ok ⟨[1, 2]⟩ := by
  have h1 : Vector.magnitude ⟨[1, 0]⟩ = 1 := by
    rw [Vector.magnitude]
    refine sqrt_eq_of_sq _ 1 (by norm_num) ?_
    norm_num
  have hne : Vector.magnitude ⟨[1, 0]⟩ ≠ 0 := by rw [h1]; norm_num
  exact ⟨hne, rfl, C6_decomposition ⟨[1, 2]⟩ ⟨[1, 0]⟩ hne rfl⟩

end WootMath

namespace WootMath

/-- Elementary bound: a paired product sum is bounded by half the sum of the
two sums of squares (AM–GM applied entry-wise; prefixes of the square sums
suffice because squares are non-negative). -/
theorem abs_zip_mul_sum_le (xs ys : List ℝ) :
    |(List.zipWith (fun x y => x * y) xs ys).sum| ≤
      ((xs.map (fun c => c ^ 2)).sum + (ys.map (fun c => c ^ 2)).sum) / 2 := by
  induction xs generalizing ys with
  | nil =>
    simp only [List.zipWith_nil_left, List.sum_nil, abs_zero, List.map_nil]
    have := sum_sq_nonneg ys
    linarith
  | cons x xs ih =>
    cases ys with
    | nil =>
      simp only [List.zipWith_nil_right, List.sum_nil, abs_zero, List.map_nil]
      have := sum_sq_nonneg (x :: xs)
      linarith
    | cons y ys =>
      simp only [List.zipWith_cons_cons, List.sum_cons, List.map_cons]
      have h1 : |x * y + (List.zipWith (fun x y => x * y) xs ys).sum| ≤
          |x * y| + |(List.zipWith (fun x y => x * y) xs ys).sum| := abs_add _ _
      have h2 : |x * y| ≤ (x ^ 2 + y ^ 2) / 2 := by
        rw [abs_le]
        constructor
        · nlinarith [sq_nonneg (x + y)]
        · nlinarith [sq_nonneg (x - y)]
      have h3 := ih ys
      linarith

/-- Scaling every entry scales the sum of squares by the square. -/
theorem sum_sq_map_mul (l : List ℝ) (t : ℝ) :
    ((l.map (fun c => c * t)).map (fun c => c ^ 2)).sum =
      ((l.map (fun c => c ^ 2)).sum) * t ^ 2 := by
  induction l with
  | nil => simp
  | cons x xs ih =>
    simp only [List.map_cons, List.sum_cons, ih]
    ring

/-- The coordinates produced by `normalized` have unit sum of squares. -/
theorem sum_sq_normalized (v : Vector) (h : v.magnitude ≠ 0) :
    ((v.coordinates.map (fun c => c * (1 / v.magnitude))).map (fun c => c ^ 2)).sum = 1 := by
  have hSne : (v.coordinates.map (fun c => c ^ 2)).sum ≠ 0 := by
    intro h0
    exact h ((Vector.magnitude_eq_zero v).mpr h0)
  have hmagsq : v.magnitude ^ 2 = (v.coordinates.map (fun c => c ^ 2)).sum :=
    Real.sq_sqrt (sum_sq_nonneg v.coordinates)
  rw [sum_sq_map_mul, div_pow, one_pow, hmagsq, mul_one_div, div_self hSne]

/-- For two vectors of non-zero magnitude, `angle_with` succeeds (the unit dot
product provably lies in the `acos` domain) and returns the arccosine of the
unit vectors' dot product. -/
theorem Vector.angle_with_eq (v w : Vector) (hv : v.magnitude ≠ 0) (hw : w.magnitude ≠ 0) :
    v.angle_with w false =
      .ok (Real.arccos (Vector.dot ⟨v.coordinates.map (fun c => c * (1 / v.magnitude))⟩
        ⟨w.coordinates.map (fun c => c * (1 / w.magnitude))⟩)) := by
  have hd : |Vector.dot ⟨v.coordinates.map (fun c => c * (1 / v.magnitude))⟩
      ⟨w.coordinates.map (fun c => c * (1 / w.magnitude))⟩| ≤ 1 := by
    have hb := abs_zip_mul_sum_le (v.coordinates.map (fun c => c * (1 / v.magnitude)))
      (w.coordinates.map (fun c => c * (1 / w.magnitude)))
    rw [sum_sq_normalized v hv, sum_sq_normalized w hw] at hb
    rw [Vector.dot]
    have h11 : ((1:ℝ) + 1) / 2 = 1 := by norm_num
    rw [h11] at hb
    exact hb
  have hd1 := abs_le.mp hd
  rw [Vector.angle_with, Vector.normalized_eq_ok v hv, Vector.normalized_eq_ok w hw]
  simp only [except_bind_ok]
  rw [acos, if_neg (by push_neg; exact hd1)]
  simp only [except_bind_ok]
  rfl

/-- The value of `is_parallel_to` once both zero tests are false and the
computed angle is known. -/
theorem Vector.is_parallel_to_eq_of_angle (a b : Vector)
    (hza : a.is_zero (1e-10) = false) (hzb : b.is_zero (1e-10) = false) (θ : ℝ)
    (hang : a.angle_with b false = .ok θ) :
    a.is_parallel_to b =
      (if θ = 0 then .ok true else if θ = Real.pi then .ok true else .ok false) := by
  rw [Vector.is_parallel_to]
  simp only [hza, hzb, hang, Bool.false_eq_true, if_false]

/-- `is_zero` is false at tolerance `1e-10` once the magnitude is a concrete
number at least that large; stated via the non-strict comparison. -/
theorem Vector.is_zero_eq_false (v : Vector) (h : ¬(v.magnitude < 1e-10)) :
    v.is_zero (1e-10) = false := by
  rw [Vector.is_zero]
  exact decide_eq_false h

/-- A false `is_zero` at tolerance `1e-10` forces a non-zero magnitude. -/
theorem Vector.magnitude_ne_zero_of_is_zero_false (v : Vector)
    (h : v.is_zero (1e-10) = false) : v.magnitude ≠ 0 := by
  rw [Vector.is_zero] at h
  have h1 := of_decide_eq_false h
  intro h0
  rw [h0] at h1
  exact h1 (by norm_num)

end WootMath

namespace WootMath

/-- Once both zero tests are false and the angle is known, `is_parallel_to`
returning true is equivalent to the angle being exactly 0 or exactly π. -/
theorem Vector.is_parallel_iff_of_angle (a b : Vector)
    (hza : a.is_zero (1e-10) = false) (hzb : b.is_zero (1e-10) = false) (θ : ℝ)
    (hang : a.angle_with b false = .ok θ) :
    (a.is_parallel_to b = .ok true ↔
      (a.is_zero (1e-10) = true ∨ b.is_zero (1e-10) = true ∨
       a.angle_with b false = .ok 0 ∨ a.angle_with b false = .ok Real.pi)) := by
  rw [Vector.is_parallel_to_eq_of_angle a b hza hzb θ hang, hang]
  by_cases h0 : θ = 0
  · simp [h0]
  · by_cases hpi : θ = Real.pi
    · simp [h0, hpi, Real.pi_ne_zero]
    · simp [h0, hpi, hza, hzb]

/-- C8: for equal-dimension operands, `is_parallel_to` returns true exactly
when one operand passes `is_zero` at the default tolerance `1e-10` or the
computed angle is exactly 0 or exactly π; in particular `(2,0)` is parallel to
`(5,0)` and `(1,0)` is not parallel to `(0,1)`. -/
theorem C8_is_parallel_to_iff :
    (∀ a b : Vector, a.dimension = b.dimension →
      (a.is_parallel_to b = .ok true ↔
        (a.is_zero (1e-10) = true ∨ b.is_zero (1e-10) = true ∨
         a.angle_with b false = .ok 0 ∨ a.angle_with b false = .ok Real.pi))) ∧
    Vector.is_parallel_to ⟨[2, 0]⟩ ⟨[5, 0]⟩ = .ok true ∧
    Vector.is_parallel_to ⟨[1, 0]⟩ ⟨[0, 1]⟩ = .ok false := by
  refine ⟨fun a b _ => ?_, ?_, ?_⟩
  · by_cases hza : a.is_zero (1e-10) = true
    · simp [Vector.is_parallel_to, hza]
    · simp only [Bool.not_eq_true] at hza
      by_cases hzb : b.is_zero (1e-10) = true
      · simp [Vector.is_parallel_to, hza, hzb]
      · simp only [Bool.not_eq_true] at hzb
        have hma := Vector.magnitude_ne_zero_of_is_zero_false a hza
        have hmb := Vector.magnitude_ne_zero_of_is_zero_false b hzb
        exact Vector.is_parallel_iff_of_angle a b hza hzb _
          (Vector.angle_with_eq a b hma hmb)
  · have hm2 : Vector.magnitude ⟨[2, 0]⟩ = 2 := by
      rw [Vector.magnitude]
      refine sqrt_eq_of_sq _ 2 (by norm_num) ?_
      norm_num
    have hm5 : Vector.magnitude ⟨[5, 0]⟩ = 5 := by
      rw [Vector.magnitude]
      refine sqrt_eq_of_sq _ 5 (by norm_num) ?_
      norm_num
    have hza : Vector.is_zero ⟨[2, 0]⟩ (1e-10) = false :=
      Vector.is_zero_eq_false _ (by rw [hm2]; norm_num)
    have hzb : Vector.is_zero ⟨[5, 0]⟩ (1e-10) = false :=
      Vector.is_zero_eq_false _ (by rw [hm5]; norm_num)
    have hma : Vector.magnitude ⟨[2, 0]⟩ ≠ 0 := by rw [hm2]; norm_num
    have hmb : Vector.magnitude ⟨[5, 0]⟩ ≠ 0 := by rw [hm5]; norm_num
    have hang0 : Vector.angle_with ⟨[2, 0]⟩ ⟨[5, 0]⟩ false = .ok 0 := by
      have h := Vector.angle_with_eq ⟨[2, 0]⟩ ⟨[5, 0]⟩ hma hmb
      rw [hm2, hm5] at h
      have hdot : Vector.dot ⟨List.map (fun c => c * (1 / 2)) [2, 0]⟩
          ⟨List.map (fun c => c * (1 / 5)) [5, 0]⟩ = 1 := by
        rw [Vector.dot]
        norm_num
      rw [hdot, Real.arccos_one] at h
      exact h
    rw [Vector.is_parallel_to_eq_of_angle _ _ hza hzb 0 hang0, if_pos rfl]
  · have hm1a : Vector.magnitude ⟨[1, 0]⟩ = 1 := by
      rw [Vector.magnitude]
      refine sqrt_eq_of_sq _ 1 (by norm_num) ?_
      norm_num
    have hm1b : Vector.magnitude ⟨[0, 1]⟩ = 1 := by
      rw [Vector.magnitude]
      refine sqrt_eq_of_sq _ 1 (by norm_num) ?_
      norm_num
    have hza : Vector.is_zero ⟨[1, 0]⟩ (1e-10) = false :=
      Vector.is_zero_eq_false _ (by rw [hm1a]; norm_num)
    have hzb : Vector.is_zero ⟨[0, 1]⟩ (1e-10) = false :=
      Vector.is_zero_eq_false _ (by rw [hm1b]; norm_num)
    have hma : Vector.magnitude ⟨[1, 0]⟩ ≠ 0 := by rw [hm1a]; norm_num
    have hmb : Vector.magnitude ⟨[0, 1]⟩ ≠ 0 := by rw [hm1b]; norm_num
    have hangp : Vector.angle_with ⟨[1, 0]⟩ ⟨[0, 1]⟩ false = .ok (Real.pi / 2) := by
      have h := Vector.angle_with_eq ⟨[1, 0]⟩ ⟨[0, 1]⟩ hma hmb
      rw [hm1a, hm1b] at h
      have hdot : Vector.dot ⟨List.map (fun c => c * (1 / 1)) [1, 0]⟩
          ⟨List.map (fun c => c * (1 / 1)) [0, 1]⟩ = 0 := by
        rw [Vector.dot]
        norm_num
      rw [hdot, Real.arccos_zero] at h
      exact h
    rw [Vector.is_parallel_to_eq_of_angle _ _ hza hzb _ hangp,
      if_neg (by simp [div_eq_zero_iff, Real.pi_ne_zero]),
      if_neg (by intro hc; have := Real.pi_pos; linarith)]

/-- C8 witness: the equivalence applied at the equal-dimension pair
`(2,0)`, `(5,0)`. -/
theorem C8_is_parallel_to_iff_witness :
    Vector.dimension ⟨[2, 0]⟩ = Vector.dimension ⟨[5, 0]⟩ ∧
    (Vector.is_parallel_to ⟨[2, 0]⟩ ⟨[5, 0]⟩ = .ok true ↔
      (Vector.is_zero ⟨[2, 0]⟩ (1e-10) = true ∨ Vector.is_zero ⟨[5, 0]⟩ (1e-10) = true ∨
       Vector.angle_with ⟨[2, 0]⟩ ⟨[5, 0]⟩ false = .ok 0 ∨
       Vector.angle_with ⟨[2, 0]⟩ ⟨[5, 0]⟩ false = .ok Real.pi)) :=
  ⟨rfl, C8_is_parallel_to_iff.1 ⟨[2, 0]⟩ ⟨[5, 0]⟩ rfl⟩

end WootMath
